import Mathlib

/-!
Verification of the core algorithms of the posture-monitoring system:
the hysteresis threshold evaluator, the weighted-moving-average angle
smoother, the adaptive threshold manager (rehabilitation-level update),
the multi-point fusion median, the progressive scoring engines and the
high-precision three-point angle computation.

JavaScript numbers are modelled as exact rationals where the code only
adds, compares and divides, and as real numbers where the code calls
Math.sqrt or Math.acos.  JavaScript truthiness of a number is modelled
as the number being nonzero; an optional object field is modelled as an
Option.
-/

namespace PostureCore

/-- Posture state of the hysteresis evaluator: the JS field currentState
holds the string good or the string bad. -/
inductive PostureState
  | good
  | bad
deriving DecidableEq, Repr

/-- State of class HysteresisEvaluator (algorithms.js): the two thresholds,
the hysteresis margin and the current state. -/
structure HysteresisEvaluator where
  neckThreshold : ℚ
  torsoThreshold : ℚ
  hysteresis : ℚ
  currentState : PostureState
deriving DecidableEq, Repr

/-- Constructor of HysteresisEvaluator: currentState starts as good. -/
def HysteresisEvaluator.init (neckThreshold torsoThreshold hysteresis : ℚ) :
    HysteresisEvaluator :=
  { neckThreshold := neckThreshold
    torsoThreshold := torsoThreshold
    hysteresis := hysteresis
    currentState := PostureState.good }

/-- Method evaluate of HysteresisEvaluator (algorithms.js, lines 96-114).
Returns the boolean result (true = good posture) together with the updated
evaluator, making the JS mutation of this.currentState explicit. -/
def HysteresisEvaluator.evaluate (e : HysteresisEvaluator)
    (neckAngle torsoAngle : ℚ) : Bool × HysteresisEvaluator :=
  match e.currentState with
  | PostureState.good =>
      if neckAngle ≥ e.neckThreshold + e.hysteresis ∨
         torsoAngle ≥ e.torsoThreshold + e.hysteresis then
        (false, { e with currentState := PostureState.bad })
      else
        (true, e)
  | PostureState.bad =>
      if neckAngle < e.neckThreshold - e.hysteresis ∧
         torsoAngle < e.torsoThreshold - e.hysteresis then
        (true, { e with currentState := PostureState.good })
      else
        (false, e)

/-- Repeated application of evaluate to a list of (neckAngle, torsoAngle)
inputs, collecting the boolean outputs and the final evaluator state. -/
def HysteresisEvaluator.evaluateSeq (e : HysteresisEvaluator) :
    List (ℚ × ℚ) → List Bool × HysteresisEvaluator
  | [] => ([], e)
  | (na, ta) :: rest =>
      let r := e.evaluate na ta
      let rest' := r.2.evaluateSeq rest
      (r.1 :: rest'.1, rest'.2)

/-- Unfolding of evaluate in the good state. -/
theorem evaluate_good_eq (e : HysteresisEvaluator)
    (hs : e.currentState = PostureState.good) (na ta : ℚ) :
    e.evaluate na ta =
      if na ≥ e.neckThreshold + e.hysteresis ∨
         ta ≥ e.torsoThreshold + e.hysteresis then
        (false, { e with currentState := PostureState.bad })
      else
        (true, e) := by
  unfold HysteresisEvaluator.evaluate
  rw [hs]

/-- Unfolding of evaluate in the bad state. -/
theorem evaluate_bad_eq (e : HysteresisEvaluator)
    (hs : e.currentState = PostureState.bad) (na ta : ℚ) :
    e.evaluate na ta =
      if na < e.neckThreshold - e.hysteresis ∧
         ta < e.torsoThreshold - e.hysteresis then
        (true, { e with currentState := PostureState.good })
      else
        (false, e) := by
  unfold HysteresisEvaluator.evaluate
  rw [hs]

/-- From the good state, an input below both upper bounds leaves the
evaluator unchanged and returns true. -/
theorem evaluate_good_stay (e : HysteresisEvaluator)
    (hs : e.currentState = PostureState.good)
    (na ta : ℚ) (hna : na < e.neckThreshold + e.hysteresis)
    (hta : ta < e.torsoThreshold + e.hysteresis) :
    e.evaluate na ta = (true, e) := by
  rw [evaluate_good_eq e hs na ta, if_neg]
  push_neg
  exact ⟨hna, hta⟩

/-- From the good state, inputs that stay strictly below both upper bounds
keep the evaluator in the good state for the whole sequence and every
output is true. -/
theorem evaluateSeq_good_of_bounds (e : HysteresisEvaluator)
    (hs : e.currentState = PostureState.good) (inputs : List (ℚ × ℚ))
    (hb : ∀ p ∈ inputs, p.1 < e.neckThreshold + e.hysteresis ∧
                        p.2 < e.torsoThreshold + e.hysteresis) :
    (e.evaluateSeq inputs).2 = e ∧ ∀ b ∈ (e.evaluateSeq inputs).1, b = true := by
  induction inputs with
  | nil => simp [HysteresisEvaluator.evaluateSeq]
  | cons p rest ih =>
      obtain ⟨hna, hta⟩ := hb p (List.mem_cons_self p rest)
      have hstep : e.evaluate p.1 p.2 = (true, e) :=
        evaluate_good_stay e hs p.1 p.2 hna hta
      have hrest := ih fun q hq => hb q (List.mem_cons_of_mem p hq)
      simp only [HysteresisEvaluator.evaluateSeq, hstep]
      refine ⟨hrest.1, ?_⟩
      intro b hbmem
      rcases List.mem_cons.mp hbmem with h | h
      · exact h
      · exact hrest.2 b h

/-- C1: The hysteresis evaluator is a two-state machine with initial state
good; from good, evaluate transitions to bad and returns false exactly when
neckAngle ≥ neckThreshold + hysteresis or torsoAngle ≥ torsoThreshold +
hysteresis, and otherwise stays good and returns true; from bad, it
transitions to good and returns true exactly when both angles are strictly
below threshold minus hysteresis, and otherwise stays bad and returns
false. -/
theorem C1_hysteresis_two_state (nt tt h na ta : ℚ) (e : HysteresisEvaluator) :
    (HysteresisEvaluator.init nt tt h).currentState = PostureState.good
    ∧ (e.currentState = PostureState.good →
        (((e.evaluate na ta).1 = false ∧
          (e.evaluate na ta).2 = { e with currentState := PostureState.bad })
          ↔ (na ≥ e.neckThreshold + e.hysteresis ∨
             ta ≥ e.torsoThreshold + e.hysteresis))
        ∧ (((e.evaluate na ta).1 = true ∧ (e.evaluate na ta).2 = e)
          ↔ ¬(na ≥ e.neckThreshold + e.hysteresis ∨
              ta ≥ e.torsoThreshold + e.hysteresis)))
    ∧ (e.currentState = PostureState.bad →
        (((e.evaluate na ta).1 = true ∧
          (e.evaluate na ta).2 = { e with currentState := PostureState.good })
          ↔ (na < e.neckThreshold - e.hysteresis ∧
             ta < e.torsoThreshold - e.hysteresis))
        ∧ (((e.evaluate na ta).1 = false ∧ (e.evaluate na ta).2 = e)
          ↔ ¬(na < e.neckThreshold - e.hysteresis ∧
              ta < e.torsoThreshold - e.hysteresis))) := by
  refine ⟨rfl, fun hs => ?_, fun hs => ?_⟩
  · rw [evaluate_good_eq e hs na ta]
    split_ifs with hc <;> simp [hc]
  · rw [evaluate_bad_eq e hs na ta]
    split_ifs with hc <;> simp [hc]

/-- Witness for C1 at the concrete evaluator with thresholds 40, 15 and
hysteresis 2 in state good, and input (43, 10). -/
theorem C1_hysteresis_two_state_witness :
    (HysteresisEvaluator.init 40 15 2).currentState = PostureState.good
    ∧ ((((HysteresisEvaluator.init 40 15 2).evaluate 43 10).1 = false ∧
        ((HysteresisEvaluator.init 40 15 2).evaluate 43 10).2 =
          { HysteresisEvaluator.init 40 15 2 with
              currentState := PostureState.bad })
       ↔ ((43:ℚ) ≥ 40 + 2 ∨ (10:ℚ) ≥ 15 + 2)) := by
  have h := C1_hysteresis_two_state 40 15 2 43 10 (HysteresisEvaluator.init 40 15 2)
  exact ⟨h.1, (h.2.1 rfl).1⟩

/-- C2: With thresholds neck 40, torso 15 and hysteresis 2, starting in the
good state, any input sequence whose neck values all stay strictly below
40 + 2 and whose torso values all stay strictly below 15 + 2 never
transitions the evaluator to bad, and evaluate returns true at every
step. -/
theorem C2_no_flicker (inputs : List (ℚ × ℚ))
    (hb : ∀ p ∈ inputs, p.1 < 40 + 2 ∧ p.2 < 15 + 2) :
    ((HysteresisEvaluator.init 40 15 2).evaluateSeq inputs).2.currentState =
      PostureState.good
    ∧ ∀ b ∈ ((HysteresisEvaluator.init 40 15 2).evaluateSeq inputs).1,
        b = true := by
  have h := evaluateSeq_good_of_bounds (HysteresisEvaluator.init 40 15 2) rfl
    inputs hb
  refine ⟨?_, h.2⟩
  rw [h.1]
  rfl

/-- Witness for C2 on the oscillating neck sequence 39, 41, 39, 41, 39 of
the spec, with the torso held at 10. -/
theorem C2_no_flicker_witness :
    (∀ p ∈ [((39:ℚ), (10:ℚ)), (41, 10), (39, 10), (41, 10), (39, 10)],
        p.1 < 40 + 2 ∧ p.2 < 15 + 2)
    ∧ (((HysteresisEvaluator.init 40 15 2).evaluateSeq
          [((39:ℚ), (10:ℚ)), (41, 10), (39, 10), (41, 10), (39, 10)]).2.currentState =
        PostureState.good
       ∧ ∀ b ∈ ((HysteresisEvaluator.init 40 15 2).evaluateSeq
          [((39:ℚ), (10:ℚ)), (41, 10), (39, 10), (41, 10), (39, 10)]).1,
          b = true) := by
  have hb : ∀ p ∈ [((39:ℚ), (10:ℚ)), (41, 10), (39, 10), (41, 10), (39, 10)],
      p.1 < 40 + 2 ∧ p.2 < 15 + 2 := by
    intro p hp
    fin_cases hp <;> norm_num
  exact ⟨hb, C2_no_flicker _ hb⟩

/-- Weight list of AngleSmoother.generateWeights (algorithms.js, lines
23-30): the raw weights 1, 2, ..., length, each normalized by the fold sum
of the raw weights. -/
def generateWeights (length : ℕ) : List ℚ :=
  let weights := (List.range length).map (fun (i : ℕ) => (i : ℚ) + 1)
  let s := weights.foldl (· + ·) 0
  weights.map (fun w => w / s)

/-- AngleSmoother.weightedAverage (algorithms.js, lines 35-37): the JS
reduce accumulates values[i] * weights[i]; the two lists have equal length
at every call site, so the zipWith sum is the same fold. -/
def weightedAverage (values weights : List ℚ) : ℚ :=
  (List.zipWith (fun v w => v * w) values weights).sum

/-- State of class AngleSmoother (algorithms.js): the window size and the
two FIFO histories, oldest first. -/
structure AngleSmoother where
  windowSize : ℕ
  neckHistory : List ℚ
  torsoHistory : List ℚ
deriving DecidableEq, Repr

/-- Constructor of AngleSmoother: both histories start empty. -/
def AngleSmoother.init (windowSize : ℕ) : AngleSmoother :=
  { windowSize := windowSize, neckHistory := [], torsoHistory := [] }

/-- Method smooth of AngleSmoother (algorithms.js, lines 39-67): push the
new values, drop the oldest pair when the neck history exceeds the window
size, then return the weighted moving averages together with the updated
smoother. JS Array.push appends at the end and Array.shift removes the
first (oldest) element; the JS guard on a non-empty history is mirrored by
the final if. -/
def AngleSmoother.smooth (s : AngleSmoother) (neckAngle torsoAngle : ℚ) :
    (ℚ × ℚ) × AngleSmoother :=
  let neckH0 := s.neckHistory ++ [neckAngle]
  let torsoH0 := s.torsoHistory ++ [torsoAngle]
  let neckH := if neckH0.length > s.windowSize then neckH0.tail else neckH0
  let torsoH := if neckH0.length > s.windowSize then torsoH0.tail else torsoH0
  if neckH.length > 0 then
    let weights := generateWeights neckH.length
    ((weightedAverage neckH weights, weightedAverage torsoH weights),
     { s with neckHistory := neckH, torsoHistory := torsoH })
  else
    ((neckAngle, torsoAngle),
     { s with neckHistory := neckH, torsoHistory := torsoH })

/-- Method reset of AngleSmoother (algorithms.js, lines 69-72): clears
both histories. -/
def AngleSmoother.reset (s : AngleSmoother) : AngleSmoother :=
  { s with neckHistory := [], torsoHistory := [] }

/-- Sum 1 + 2 + ... + n, as the spec words the weight denominator. -/
def triangular (n : ℕ) : ℚ := ∑ i ∈ Finset.range n, ((i : ℚ) + 1)

/-- Weighted moving average exactly as the spec words it: for a window of
length n, the i-th sample (1-indexed, oldest first) has weight
i / (1 + 2 + ... + n). -/
def specWMA (l : List ℚ) : ℚ :=
  ∑ i ∈ Finset.range l.length, l.getD i 0 * (((i : ℚ) + 1) / triangular l.length)

/-- Sum of a mapped range list equals the corresponding finite sum. -/
theorem sum_map_range (g : ℕ → ℚ) (n : ℕ) :
    ((List.range n).map g).sum = ∑ i ∈ Finset.range n, g i := by
  induction n with
  | zero => simp
  | succ n ih =>
      rw [List.range_succ, List.map_append, List.sum_append,
        Finset.sum_range_succ, ih]
      simp

/-- Sum of pointwise products of a list against a mapped range of its own
length, as a finite indexed sum. -/
theorem sum_zipWith_map_range (g : ℕ → ℚ) (l : List ℚ) :
    (List.zipWith (fun v w => v * w) l ((List.range l.length).map g)).sum
      = ∑ i ∈ Finset.range l.length, l.getD i 0 * g i := by
  induction l generalizing g with
  | nil => simp
  | cons x xs ih =>
      rw [List.length_cons, List.range_succ_eq_map, List.map_cons,
        List.zipWith_cons_cons, List.sum_cons, List.map_map,
        Finset.sum_range_succ']
      have hcomp : (List.range xs.length).map (g ∘ Nat.succ)
          = (List.range xs.length).map (fun i => g (i + 1)) := by
        simp [Function.comp, Nat.succ_eq_add_one]
      rw [hcomp, ih (fun i => g (i + 1))]
      simp [add_comm]

/-- Fold sum of the raw weights 1, ..., n is the triangular sum. -/
theorem rawWeights_foldl_eq (n : ℕ) :
    ((List.range n).map (fun (i : ℕ) => (i : ℚ) + 1)).foldl (· + ·) 0
      = triangular n := by
  rw [← List.sum_eq_foldl, sum_map_range]
  rfl

/-- The generated weight list is the range list of the spec weights. -/
theorem generateWeights_eq (n : ℕ) :
    generateWeights n
      = (List.range n).map (fun (i : ℕ) => ((i : ℚ) + 1) / triangular n) := by
  simp only [generateWeights]
  rw [rawWeights_foldl_eq, List.map_map]
  rfl

/-- The code's weighted average over its generated weights is exactly the
spec's weighted moving average. -/
theorem weightedAverage_generateWeights (l : List ℚ) :
    weightedAverage l (generateWeights l.length) = specWMA l := by
  rw [weightedAverage, generateWeights_eq,
    sum_zipWith_map_range (fun i => ((i : ℚ) + 1) / triangular l.length) l]
  rfl

/-- Window update of smooth: push, then a single oldest-element eviction
exactly when the pushed neck history exceeds the window size. -/
theorem smooth_histories (s : AngleSmoother) (na ta : ℚ) :
    (s.smooth na ta).2.neckHistory
        = (if (s.neckHistory ++ [na]).length > s.windowSize
           then (s.neckHistory ++ [na]).tail else s.neckHistory ++ [na])
    ∧ (s.smooth na ta).2.torsoHistory
        = (if (s.neckHistory ++ [na]).length > s.windowSize
           then (s.torsoHistory ++ [ta]).tail else s.torsoHistory ++ [ta])
    ∧ (s.smooth na ta).2.windowSize = s.windowSize := by
  simp only [AngleSmoother.smooth]
  split_ifs <;> simp_all

/-- With a positive window size the resulting neck window is non-empty and
the output pair is the code's weighted average of the two updated windows,
with weights generated from the updated neck window length. -/
theorem smooth_output (s : AngleSmoother) (na ta : ℚ)
    (hw : 0 < s.windowSize) :
    (s.smooth na ta).1
      = (weightedAverage (s.smooth na ta).2.neckHistory
           (generateWeights (s.smooth na ta).2.neckHistory.length),
         weightedAverage (s.smooth na ta).2.torsoHistory
           (generateWeights (s.smooth na ta).2.neckHistory.length)) := by
  simp only [AngleSmoother.smooth]
  split_ifs <;> simp_all

/-- C3: On every call (with a positive window size, as configured in the
application, and equal-length histories) the smoother's output pair is the
weighted moving average of the updated window contents with linearly
increasing weights i / (1 + 2 + ... + n); the first output of a fresh
smoother equals the raw input; and a window-3 smoother fed 10, 20, 30
produces 140/6 as its third output. -/
theorem C3_smoother_wma (s : AngleSmoother) (na ta : ℚ)
    (hw : 0 < s.windowSize)
    (hlen : s.neckHistory.length = s.torsoHistory.length) :
    ((s.smooth na ta).1.1 = specWMA (s.smooth na ta).2.neckHistory
      ∧ (s.smooth na ta).1.2 = specWMA (s.smooth na ta).2.torsoHistory)
    ∧ (∀ (w : ℕ) (x y : ℚ), ((AngleSmoother.init w).smooth x y).1 = (x, y))
    ∧ (((((AngleSmoother.init 3).smooth 10 10).2.smooth 20 20).2.smooth 30 30).1
        = (140 / 6, 140 / 6)) := by
  have hh := smooth_histories s na ta
  have hlen2 : (s.smooth na ta).2.torsoHistory.length
      = (s.smooth na ta).2.neckHistory.length := by
    rw [hh.1, hh.2.1]
    split_ifs <;> simp [hlen]
  have ho := smooth_output s na ta hw
  refine ⟨⟨?_, ?_⟩, ?_, ?_⟩
  · rw [ho]
    exact weightedAverage_generateWeights _
  · rw [ho]
    show weightedAverage (s.smooth na ta).2.torsoHistory
      (generateWeights (s.smooth na ta).2.neckHistory.length) = _
    rw [← hlen2]
    exact weightedAverage_generateWeights _
  · intro w x y
    by_cases hw0 : w = 0
    · subst hw0
      norm_num [AngleSmoother.smooth, AngleSmoother.init]
    · have h1 : ¬ (1 > w) := by omega
      norm_num [AngleSmoother.smooth, AngleSmoother.init, h1, generateWeights,
        weightedAverage, List.range_succ, List.foldl]
  · norm_num [AngleSmoother.smooth, AngleSmoother.init, generateWeights,
      weightedAverage, List.range_succ, List.foldl]

/-- Witness for C3: a fresh smoother with the default window size 10, fed
the pair (5, 7). -/
theorem C3_smoother_wma_witness :
    (0 < (AngleSmoother.init 10).windowSize
      ∧ (AngleSmoother.init 10).neckHistory.length
          = (AngleSmoother.init 10).torsoHistory.length)
    ∧ ((AngleSmoother.init 10).smooth 5 7).1.1
        = specWMA ((AngleSmoother.init 10).smooth 5 7).2.neckHistory :=
  ⟨⟨by decide, rfl⟩,
   (C3_smoother_wma (AngleSmoother.init 10) 5 7 (by decide) rfl).1.1⟩

/-- Operations callable on a smoother: a smooth call with its two
arguments, or a reset call. -/
inductive SmootherOp
  | smoothOp (neckAngle torsoAngle : ℚ)
  | resetOp

/-- Apply a sequence of smooth and reset calls to a smoother state. -/
def applyOps : AngleSmoother → List SmootherOp → AngleSmoother
  | s, [] => s
  | s, SmootherOp.smoothOp na ta :: rest => applyOps (s.smooth na ta).2 rest
  | s, SmootherOp.resetOp :: rest => applyOps s.reset rest

/-- One smooth call preserves the equal-length and capacity invariant and
keeps the window size. -/
theorem smooth_preserves_inv (s : AngleSmoother)
    (hlen : s.neckHistory.length = s.torsoHistory.length)
    (hle : s.neckHistory.length ≤ s.windowSize) (na ta : ℚ) :
    (s.smooth na ta).2.neckHistory.length
        = (s.smooth na ta).2.torsoHistory.length
    ∧ (s.smooth na ta).2.neckHistory.length ≤ s.windowSize := by
  have hh := smooth_histories s na ta
  rw [hh.1, hh.2.1]
  split_ifs with hc
  · simp only [List.length_tail, List.length_append, List.length_singleton]
    omega
  · simp only [List.length_append, List.length_singleton]
    simp only [List.length_append, List.length_singleton] at hc
    omega

/-- The equal-length and capacity invariant is preserved by any sequence
of smooth and reset calls, and the window size never changes. -/
theorem applyOps_inv (s : AngleSmoother)
    (hlen : s.neckHistory.length = s.torsoHistory.length)
    (hle : s.neckHistory.length ≤ s.windowSize) (ops : List SmootherOp) :
    (applyOps s ops).neckHistory.length
        = (applyOps s ops).torsoHistory.length
    ∧ (applyOps s ops).neckHistory.length ≤ (applyOps s ops).windowSize
    ∧ (applyOps s ops).windowSize = s.windowSize := by
  induction ops generalizing s with
  | nil => exact ⟨hlen, hle, rfl⟩
  | cons op rest ih =>
      cases op with
      | smoothOp na ta =>
          simp only [applyOps]
          have hp := smooth_preserves_inv s hlen hle na ta
          have hwEq := (smooth_histories s na ta).2.2
          have := ih (s.smooth na ta).2 hp.1 (by rw [hwEq]; exact hp.2)
          exact ⟨this.1, this.2.1, by rw [this.2.2, hwEq]⟩
      | resetOp =>
          simp only [applyOps]
          have := ih s.reset rfl (by simp [AngleSmoother.reset])
          exact ⟨this.1, this.2.1, this.2.2⟩

/-- C10: After any sequence of smooth and reset calls starting from a
fresh smoother, the neck and torso histories have equal length bounded by
the window size; and every smooth call maps the histories to a drop of at
most one (the oldest) element from the pushed histories. -/
theorem C10_smoother_window_invariant (w : ℕ) (ops : List SmootherOp) :
    ((applyOps (AngleSmoother.init w) ops).neckHistory.length
        = (applyOps (AngleSmoother.init w) ops).torsoHistory.length
      ∧ (applyOps (AngleSmoother.init w) ops).neckHistory.length ≤ w)
    ∧ ∀ (s : AngleSmoother) (na ta : ℚ),
        s.neckHistory.length = s.torsoHistory.length →
        ∃ k ≤ 1,
          (s.smooth na ta).2.neckHistory = (s.neckHistory ++ [na]).drop k
          ∧ (s.smooth na ta).2.torsoHistory
              = (s.torsoHistory ++ [ta]).drop k := by
  constructor
  · have h := applyOps_inv (AngleSmoother.init w) rfl (by simp [AngleSmoother.init]) ops
    refine ⟨h.1, ?_⟩
    have := h.2.1
    rwa [h.2.2] at this
  · intro s na ta hlen
    have hh := smooth_histories s na ta
    by_cases hc : (s.neckHistory ++ [na]).length > s.windowSize
    · refine ⟨1, le_refl 1, ?_, ?_⟩
      · rw [hh.1, if_pos hc, List.drop_one]
      · rw [hh.2.1, if_pos hc, List.drop_one]
    · refine ⟨0, Nat.zero_le 1, ?_, ?_⟩
      · rw [hh.1, if_neg hc, List.drop_zero]
      · rw [hh.2.1, if_neg hc, List.drop_zero]

/-- Witness for C10: the empty operation sequence on window size 3, and a
single smooth call on a one-element smoother. -/
theorem C10_smoother_window_invariant_witness :
    ((⟨3, [1], [2]⟩ : AngleSmoother).neckHistory.length
        = (⟨3, [1], [2]⟩ : AngleSmoother).torsoHistory.length)
    ∧ ∃ k ≤ 1,
        ((⟨3, [1], [2]⟩ : AngleSmoother).smooth 4 5).2.neckHistory
            = (([1] : List ℚ) ++ [4]).drop k
        ∧ ((⟨3, [1], [2]⟩ : AngleSmoother).smooth 4 5).2.torsoHistory
            = (([2] : List ℚ) ++ [5]).drop k :=
  ⟨rfl, (C10_smoother_window_invariant 3 []).2 ⟨3, [1], [2]⟩ 4 5 rfl⟩

/-- Rehabilitation level of the adaptive threshold manager: the JS field
rehabLevel holds one of the strings early, middle, late. -/
inductive RehabLevel
  | early
  | middle
  | late
deriving DecidableEq, Repr

/-- Precomputed summary object of a history entry; updateRehabLevel only
reads its goodPercentage field. -/
structure Summary where
  goodPercentage : ℚ
deriving DecidableEq, Repr

/-- History entry as read by updateRehabLevel (algorithms.js, lines
168-174): an optional summary object and the good/bad time counts. A JS
missing count is falsy exactly like a zero count, so both are modelled as
the rational 0. -/
structure HistoryEntry where
  summary : Option Summary
  goodTime : ℚ
  badTime : ℚ
deriving DecidableEq, Repr

/-- Per-entry good percentage as computed inside the reduce of
updateRehabLevel: the summary's goodPercentage when a summary object is
present; otherwise goodTime / (goodTime + badTime) * 100 when both counts
are truthy (nonzero), and 0 in every other case. -/
def goodPercent (d : HistoryEntry) : ℚ :=
  match d.summary with
  | some s => s.goodPercentage
  | none =>
      if d.goodTime ≠ 0 ∧ d.badTime ≠ 0 then
        d.goodTime / (d.goodTime + d.badTime) * 100
      else 0

/-- State of class AdaptiveThresholdManager (algorithms.js) restricted to
the fields updateRehabLevel touches: the base thresholds and the current
rehabilitation level. -/
structure AdaptiveThresholdManager where
  baseNeckThreshold : ℚ
  baseTorsoThreshold : ℚ
  rehabLevel : RehabLevel
deriving DecidableEq, Repr

/-- Method updateRehabLevel (algorithms.js, lines 161-184): a missing or
empty history sets early; otherwise the mean good percentage of the last 7
entries (JS slice(-7), which keeps the whole list when shorter) classifies
the level as early below 30, middle below 70 and late otherwise. -/
def AdaptiveThresholdManager.updateRehabLevel (m : AdaptiveThresholdManager)
    (historyData : Option (List HistoryEntry)) : AdaptiveThresholdManager :=
  match historyData with
  | none => { m with rehabLevel := RehabLevel.early }
  | some h =>
      if h.length = 0 then { m with rehabLevel := RehabLevel.early }
      else
        let recentData := h.drop (h.length - 7)
        let avgGoodPercentage :=
          (recentData.map goodPercent).sum / (recentData.length : ℚ)
        { m with rehabLevel :=
            if avgGoodPercentage < 30 then RehabLevel.early
            else if avgGoodPercentage < 70 then RehabLevel.middle
            else RehabLevel.late }

/-- C7: updateRehabLevel classifies from the mean good percentage of the
last 7 history entries: below 30 early, in [30, 70) middle, at least 70
late; an empty or missing history sets early; 7 entries of goodPercentage
80 give late and an all-zero history gives early. -/
theorem C7_update_rehab_level (m : AdaptiveThresholdManager)
    (h : List HistoryEntry) :
    (h ≠ [] →
      (((h.drop (h.length - 7)).map goodPercent).sum
            / ((h.drop (h.length - 7)).length : ℚ) < 30 →
        (m.updateRehabLevel (some h)).rehabLevel = RehabLevel.early)
      ∧ (30 ≤ ((h.drop (h.length - 7)).map goodPercent).sum
            / ((h.drop (h.length - 7)).length : ℚ) →
         ((h.drop (h.length - 7)).map goodPercent).sum
            / ((h.drop (h.length - 7)).length : ℚ) < 70 →
        (m.updateRehabLevel (some h)).rehabLevel = RehabLevel.middle)
      ∧ (70 ≤ ((h.drop (h.length - 7)).map goodPercent).sum
            / ((h.drop (h.length - 7)).length : ℚ) →
        (m.updateRehabLevel (some h)).rehabLevel = RehabLevel.late))
    ∧ (m.updateRehabLevel (some [])).rehabLevel = RehabLevel.early
    ∧ (m.updateRehabLevel none).rehabLevel = RehabLevel.early
    ∧ (m.updateRehabLevel
        (some (List.replicate 7 ⟨some ⟨80⟩, 0, 0⟩))).rehabLevel
        = RehabLevel.late
    ∧ (m.updateRehabLevel
        (some (List.replicate 7 ⟨none, 0, 0⟩))).rehabLevel
        = RehabLevel.early := by
  refine ⟨?_, rfl, rfl, ?_, ?_⟩
  · intro hne
    have hlen : ¬ h.length = 0 := by simpa using hne
    simp only [AdaptiveThresholdManager.updateRehabLevel]
    rw [if_neg hlen]
    refine ⟨fun h30 => ?_, fun h30 h70 => ?_, fun h70 => ?_⟩
    · rw [if_pos h30]
    · rw [if_neg (not_lt.mpr h30), if_pos h70]
    · rw [if_neg (not_lt.mpr (le_trans (by norm_num) h70)),
        if_neg (not_lt.mpr h70)]
  · norm_num [AdaptiveThresholdManager.updateRehabLevel, goodPercent,
      List.replicate]
  · norm_num [AdaptiveThresholdManager.updateRehabLevel, goodPercent,
      List.replicate]

/-- Witness for C7: a single-entry history whose summary says 50 percent,
classified middle. -/
theorem C7_update_rehab_level_witness :
    (([⟨some ⟨50⟩, 0, 0⟩] : List HistoryEntry) ≠ []
      ∧ (30 : ℚ) ≤ (([⟨some ⟨50⟩, 0, 0⟩] : List HistoryEntry).drop
            (([⟨some ⟨50⟩, 0, 0⟩] : List HistoryEntry).length - 7)
            |>.map goodPercent).sum
          / ((([⟨some ⟨50⟩, 0, 0⟩] : List HistoryEntry).drop
            (([⟨some ⟨50⟩, 0, 0⟩] : List HistoryEntry).length - 7)).length : ℚ))
    ∧ ((⟨40, 10, RehabLevel.early⟩ : AdaptiveThresholdManager).updateRehabLevel
        (some [⟨some ⟨50⟩, 0, 0⟩])).rehabLevel = RehabLevel.middle := by
  refine ⟨⟨by simp, by norm_num [goodPercent]⟩, ?_⟩
  exact ((C7_update_rehab_level ⟨40, 10, RehabLevel.early⟩
      [⟨some ⟨50⟩, 0, 0⟩]).1 (by simp)).2.1
    (by norm_num [goodPercent]) (by norm_num [goodPercent])

/-- C8 counterexample: the history entry with no summary, goodTime 5 and
badTime 0 has nonnegative counts that are not both zero, yet the percentage
the code uses is 0, not goodTime / (goodTime + badTime) * 100 = 100. -/
theorem C8_counterexample :
    goodPercent ⟨none, 5, 0⟩ = 0
    ∧ (5 : ℚ) / (5 + 0) * 100 = 100
    ∧ goodPercent ⟨none, 5, 0⟩ ≠ (5 : ℚ) / (5 + 0) * 100 := by
  norm_num [goodPercent]

/-- C8 (amended): the time-count fallback of updateRehabLevel applies only
when both counts are truthy: with no summary and both goodTime and badTime
nonzero the percentage used is goodTime / (goodTime + badTime) * 100; with
no summary and either count zero it is 0; with a summary present the
summary's goodPercentage is used. -/
theorem C8_good_percent_amended (d : HistoryEntry) :
    (d.summary = none → d.goodTime ≠ 0 → d.badTime ≠ 0 →
      goodPercent d = d.goodTime / (d.goodTime + d.badTime) * 100)
    ∧ (d.summary = none → (d.goodTime = 0 ∨ d.badTime = 0) →
      goodPercent d = 0)
    ∧ (∀ s, d.summary = some s → goodPercent d = s.goodPercentage) := by
  refine ⟨fun hs hg hb => ?_, fun hs hz => ?_, fun s hs => ?_⟩
  · unfold goodPercent
    rw [hs]
    exact if_pos ⟨hg, hb⟩
  · unfold goodPercent
    rw [hs]
    exact if_neg (by rcases hz with hz | hz <;> simp [hz])
  · unfold goodPercent
    rw [hs]

/-- Witness for C8 (amended): the entry with no summary, goodTime 3 and
badTime 1 yields 3 / (3 + 1) * 100 = 75. -/
theorem C8_good_percent_amended_witness :
    goodPercent ⟨none, 3, 1⟩ = (3 : ℚ) / (3 + 1) * 100 :=
  (C8_good_percent_amended ⟨none, 3, 1⟩).1 rfl (by norm_num) (by norm_num)

/-- Function median of the posture-analysis module: keep the strictly
positive entries (the JS filter also drops NaN, which has no rational
counterpart), sort ascending, and return the middle element, or the
average of the two central elements for an even count; 0 for an empty
input or when no entry is positive. calculateAngleWithFusion returns
median applied to its list of collected candidate angle estimates. -/
def median (arr : List ℚ) : ℚ :=
  if arr.length = 0 then 0
  else
    let sorted := (arr.filter (fun v => 0 < v)).mergeSort (fun a b => a ≤ b)
    if sorted.length = 0 then 0
    else
      let mid := sorted.length / 2
      if sorted.length % 2 = 0 then
        (sorted.getD (mid - 1) 0 + sorted.getD mid 0) / 2
      else sorted.getD mid 0

/-- C4: median returns the median of exactly the strictly positive
entries: stated against any sorted permutation s of the positive entries,
it returns 0 when s is empty, the middle element of s for an odd count,
the average of the two central elements of s for an even count, and in
particular 22 on the estimates 20, 22, 95. -/
theorem C4_fusion_median (arr : List ℚ) (s : List ℚ)
    (hperm : s.Perm (arr.filter (fun v => 0 < v)))
    (hsort : s.Sorted (· ≤ ·)) :
    (s = [] → median arr = 0)
    ∧ (s.length % 2 = 1 → median arr = s.getD (s.length / 2) 0)
    ∧ (s ≠ [] → s.length % 2 = 0 →
        median arr
          = (s.getD (s.length / 2 - 1) 0 + s.getD (s.length / 2) 0) / 2)
    ∧ median [20, 22, 95] = 22 := by
  have hsEq : (arr.filter (fun v => 0 < v)).mergeSort (fun a b => a ≤ b)
      = s := by
    refine List.eq_of_perm_of_sorted
      ((List.mergeSort_perm _ _).trans hperm.symm) ?_ hsort
    exact List.sorted_mergeSort' _
  have hconc : median [20, 22, 95] = 22 := by
    have hf : ([20, 22, 95] : List ℚ).filter (fun v => 0 < v)
        = [20, 22, 95] := by
      norm_num [List.filter]
    have hsorted : ([20, 22, 95] : List ℚ).Sorted (· ≤ ·) := by
      norm_num [List.sorted_cons]
    unfold median
    rw [hf, List.mergeSort_eq_self hsorted]
    norm_num
  refine ⟨?_, ?_, ?_, hconc⟩
  · intro hse
    unfold median
    rw [hsEq, hse]
    split_ifs <;> simp_all
  · intro hodd
    have hne : s ≠ [] := by
      intro he
      rw [he] at hodd
      simp at hodd
    have harr : ¬ arr.length = 0 := by
      intro h0
      rw [List.length_eq_zero.mp h0] at hperm
      exact hne (hperm.eq_nil)
    have hsne : ¬ s.length = 0 := by simpa using hne
    unfold median
    rw [hsEq, if_neg harr, if_neg hsne, if_neg (by omega : ¬ s.length % 2 = 0)]
  · intro hne heven
    have harr : ¬ arr.length = 0 := by
      intro h0
      rw [List.length_eq_zero.mp h0] at hperm
      exact hne (hperm.eq_nil)
    have hsne : ¬ s.length = 0 := by simpa using hne
    unfold median
    rw [hsEq, if_neg harr, if_neg hsne, if_pos heven]

/-- Witness for C4: the candidate list 0, 22, 20, 95 has positive entries
sorting to 20, 22, 95, odd count, so median picks the middle value 22. -/
theorem C4_fusion_median_witness :
    (([20, 22, 95] : List ℚ).Perm
        (([0, 22, 20, 95] : List ℚ).filter (fun v => 0 < v))
      ∧ ([20, 22, 95] : List ℚ).Sorted (· ≤ ·)
      ∧ ([20, 22, 95] : List ℚ).length % 2 = 1)
    ∧ median [0, 22, 20, 95]
        = ([20, 22, 95] : List ℚ).getD
            (([20, 22, 95] : List ℚ).length / 2) 0 := by
  have hf : ([0, 22, 20, 95] : List ℚ).filter (fun v => 0 < v)
      = [22, 20, 95] := by
    norm_num [List.filter]
  have hperm : ([20, 22, 95] : List ℚ).Perm
      (([0, 22, 20, 95] : List ℚ).filter (fun v => 0 < v)) := by
    rw [hf]
    exact List.Perm.swap 22 20 [95]
  have hsort : ([20, 22, 95] : List ℚ).Sorted (· ≤ ·) := by
    norm_num [List.sorted_cons]
  exact ⟨⟨hperm, hsort, by norm_num⟩,
    (C4_fusion_median [0, 22, 20, 95] [20, 22, 95] hperm hsort).2.1
      (by norm_num)⟩

/-- Threshold profile (constants.js, SCI_THRESHOLDS entries): the
per-metric limits and the weighted score acceptance ratio. The JS global
currentThresholdMode selects the active profile via getCurrentThresholds;
the active profile is passed explicitly here. -/
structure ThresholdProfile where
  neck : ℝ
  torso : ℝ
  shoulder : ℝ
  hip : ℝ
  head : ℝ
  weightedScoreThreshold : ℝ

/-- The standard profile of constants.js. -/
noncomputable def standardProfile : ThresholdProfile :=
  { neck := 40, torso := 15, shoulder := 30, hip := 25, head := 25,
    weightedScoreThreshold := 0.70 }

/-- Side-view metrics consumed by calculatePostureScoreSide. -/
structure SideMetrics where
  neckAngle : ℝ
  torsoAngle : ℝ

/-- Side-view thresholds consumed by calculatePostureScoreSide. -/
structure SideThresholds where
  neck : ℝ
  torso : ℝ

/-- Result record of calculatePostureScoreSide: the JS boolean isGood is
modelled as the proposition it tests. -/
structure SideScoreResult where
  score : ℝ
  isGood : Prop
  neckBreakdown : ℝ
  torsoBreakdown : ℝ
  percentage : ℤ

/-- Inner function calculateAngleProgressiveScore of
calculatePostureScoreSide (posture-analysis module, lines 166-181): full
credit below 75 percent of the threshold, linear taper down to 0.85 of the
weight approaching the threshold, square-root decay of the excess ratio
with curve constant 1.5 and clamp at 1 above it. -/
noncomputable def calculateAngleProgressiveScore
    (value threshold weight : ℝ) : ℝ :=
  if value < threshold then
    let ratio := value / threshold
    let bonus :=
      if ratio < 0.75 then (1.0 : ℝ) else 1.0 - ((ratio - 0.75) / 0.25) * 0.15
    weight * bonus
  else
    let excess := value - threshold
    let excessRatio := excess / threshold
    let penaltyRatio := min (Real.sqrt (excessRatio * 1.5)) 1
    weight * (1 - penaltyRatio)

/-- Function calculatePostureScoreSide (posture-analysis module, lines
154-204): weights 0.45/0.55 in SCI mode, 0.50/0.50 otherwise; the score is
the sum of the two progressive contributions; the acceptance level is
hard-coded to 0.75 (SCI mode) or 0.85 (standard), and the profile obtained
from getCurrentThresholds is read but not used for the decision. -/
noncomputable def calculatePostureScoreSide (metrics : SideMetrics)
    (thresholds : SideThresholds) (isSCIMode : Bool)
    (profile : ThresholdProfile) : SideScoreResult :=
  let weights : ℝ × ℝ := if isSCIMode then (0.45, 0.55) else (0.50, 0.50)
  let neckB := calculateAngleProgressiveScore metrics.neckAngle
    thresholds.neck weights.1
  let torsoB := calculateAngleProgressiveScore metrics.torsoAngle
    thresholds.torso weights.2
  let score := 0.0 + neckB + torsoB
  let scoreThreshold : ℝ := if isSCIMode then 0.75 else 0.85
  { score := score
    isGood := score ≥ scoreThreshold
    neckBreakdown := neckB
    torsoBreakdown := torsoB
    percentage := round (score * 100) }

/-- Front-view metrics consumed by calculatePostureScoreFront; the spinal
curvature may be absent (JS undefined). -/
structure FrontMetrics where
  shoulderTilt : ℝ
  hipTilt : ℝ
  headTilt : ℝ
  spinalCurvature : Option ℝ

/-- Front-view thresholds consumed by calculatePostureScoreFront; the
spinal threshold may be absent. -/
structure FrontThresholds where
  shoulder : ℝ
  hip : ℝ
  head : ℝ
  spinal : Option ℝ

/-- Weight record used by calculatePostureScoreFront. -/
structure FrontWeights where
  shoulder : ℝ
  hip : ℝ
  head : ℝ
  spinal : ℝ

/-- Result record of calculatePostureScoreFront. -/
structure FrontScoreResult where
  score : ℝ
  isGood : Prop
  shoulderBreakdown : ℝ
  hipBreakdown : ℝ
  headBreakdown : ℝ
  spinalBreakdown : Option ℝ
  percentage : ℤ

/-- Inner function calculateProgressiveScore of calculatePostureScoreFront
(posture-analysis module, lines 100-114): comfortable ratio 0.7, taper
penalty 0.1, square-root decay with curve constant 2 and clamp at 1. -/
noncomputable def calculateProgressiveScore
    (value threshold weight : ℝ) : ℝ :=
  if value < threshold then
    let ratio := value / threshold
    let bonus :=
      if ratio < 0.7 then (1.0 : ℝ) else 1.0 - ((ratio - 0.7) / 0.3) * 0.1
    weight * bonus
  else
    let excess := value - threshold
    let excessRatio := excess / threshold
    let penaltyRatio := min (Real.sqrt (excessRatio * 2)) 1
    weight * (1 - penaltyRatio)

/-- Function calculatePostureScoreFront (posture-analysis module, lines
70-143): mode-dependent weights, renormalized over shoulder/hip/head when
no spinal curvature is measured; the spinal contribution is added only
when both the measurement and a truthy (nonzero) spinal threshold are
present; the decision compares the score with the active profile's
weightedScoreThreshold. -/
noncomputable def calculatePostureScoreFront (metrics : FrontMetrics)
    (thresholds : FrontThresholds) (isSCIMode : Bool)
    (profile : ThresholdProfile) : FrontScoreResult :=
  let w0 : FrontWeights :=
    if isSCIMode then
      { shoulder := 0.30, hip := 0.30, head := 0.25, spinal := 0.15 }
    else
      { shoulder := 0.35, hip := 0.30, head := 0.20, spinal := 0.15 }
  let hasSpinalData := metrics.spinalCurvature.isSome
  let w : FrontWeights :=
    if hasSpinalData then w0
    else
      let totalWeight := w0.shoulder + w0.hip + w0.head
      { shoulder := w0.shoulder / totalWeight, hip := w0.hip / totalWeight,
        head := w0.head / totalWeight, spinal := 0 }
  let shoulderB := calculateProgressiveScore metrics.shoulderTilt
    thresholds.shoulder w.shoulder
  let hipB := calculateProgressiveScore metrics.hipTilt thresholds.hip w.hip
  let headB := calculateProgressiveScore metrics.headTilt thresholds.head
    w.head
  let spinalB : Option ℝ :=
    match metrics.spinalCurvature, thresholds.spinal with
    | some sc, some st =>
        if st ≠ 0 then some (calculateProgressiveScore sc st w.spinal)
        else none
    | _, _ => none
  let score := 0.0 + shoulderB + hipB + headB +
    (match spinalB with | some b => b | none => 0)
  let scoreThreshold := profile.weightedScoreThreshold
  { score := score
    isGood := score ≥ scoreThreshold
    shoulderBreakdown := shoulderB
    hipBreakdown := hipB
    headBreakdown := headB
    spinalBreakdown := spinalB
    percentage := round (score * 100) }

/-- C5: side-view scoring decides isGood against the hard-coded acceptance
level 0.85 (standard) or 0.75 (SCI mode) and is entirely independent of
the active profile, while front-view scoring decides isGood against the
active profile's weightedScoreThreshold. -/
theorem C5_acceptance_levels (m : SideMetrics) (t : SideThresholds)
    (fm : FrontMetrics) (ft : FrontThresholds) (sci : Bool)
    (p q : ThresholdProfile) :
    ((calculatePostureScoreSide m t sci p).isGood
        ↔ (calculatePostureScoreSide m t sci p).score
            ≥ (if sci then (0.75 : ℝ) else 0.85))
    ∧ calculatePostureScoreSide m t sci p = calculatePostureScoreSide m t sci q
    ∧ ((calculatePostureScoreFront fm ft sci p).isGood
        ↔ (calculatePostureScoreFront fm ft sci p).score
            ≥ p.weightedScoreThreshold) :=
  ⟨Iff.rfl, rfl, Iff.rfl⟩

/-- Witness for C5 at concrete metrics, thresholds and the standard
profile, standard (non-SCI) mode. -/
theorem C5_acceptance_levels_witness :
    ((calculatePostureScoreSide ⟨45, 10⟩ ⟨40, 15⟩ false standardProfile).isGood
        ↔ (calculatePostureScoreSide ⟨45, 10⟩ ⟨40, 15⟩ false
              standardProfile).score ≥ (if false then (0.75 : ℝ) else 0.85))
    ∧ ((calculatePostureScoreFront ⟨5, 5, 5, none⟩ ⟨30, 25, 25, none⟩ false
          standardProfile).isGood
        ↔ (calculatePostureScoreFront ⟨5, 5, 5, none⟩ ⟨30, 25, 25, none⟩ false
              standardProfile).score ≥ standardProfile.weightedScoreThreshold) :=
  ⟨(C5_acceptance_levels ⟨45, 10⟩ ⟨40, 15⟩ ⟨5, 5, 5, none⟩ ⟨30, 25, 25, none⟩
      false standardProfile standardProfile).1,
   (C5_acceptance_levels ⟨45, 10⟩ ⟨40, 15⟩ ⟨5, 5, 5, none⟩ ⟨30, 25, 25, none⟩
      false standardProfile standardProfile).2.2⟩

/-- Unfolding of the side per-metric score at or above the threshold. -/
theorem angleProg_ge_eq (v t w : ℝ) (h : ¬ v < t) :
    calculateAngleProgressiveScore v t w
      = w * (1 - min (Real.sqrt ((v - t) / t * 1.5)) 1) := by
  unfold calculateAngleProgressiveScore
  rw [if_neg h]

/-- Unfolding of the side per-metric score below the comfortable ratio. -/
theorem angleProg_comfort_eq (v t w : ℝ) (h : v < t) (h2 : v / t < 0.75) :
    calculateAngleProgressiveScore v t w = w * 1.0 := by
  unfold calculateAngleProgressiveScore
  rw [if_pos h]
  show w * (if v / t < 0.75 then (1.0 : ℝ)
    else 1.0 - (v / t - 0.75) / 0.25 * 0.15) = w * 1.0
  rw [if_pos h2]

/-- Component unfolding of side scoring in standard (non-SCI) mode. -/
theorem side_components (m : SideMetrics) (t : SideThresholds)
    (p : ThresholdProfile) :
    (calculatePostureScoreSide m t false p).neckBreakdown
        = calculateAngleProgressiveScore m.neckAngle t.neck 0.50
    ∧ (calculatePostureScoreSide m t false p).torsoBreakdown
        = calculateAngleProgressiveScore m.torsoAngle t.torso 0.50
    ∧ (calculatePostureScoreSide m t false p).score
        = 0.0 + calculateAngleProgressiveScore m.neckAngle t.neck 0.50
            + calculateAngleProgressiveScore m.torsoAngle t.torso 0.50
    ∧ ((calculatePostureScoreSide m t false p).isGood
        ↔ (calculatePostureScoreSide m t false p).score ≥ 0.85) :=
  ⟨rfl, rfl, rfl, Iff.rfl⟩

/-- C6: for raw neck 45 and torso 10 against thresholds 40 and 15 in
standard mode, the neck contribution is 0.5 * (1 - sqrt(((45-40)/40)*1.5))
(within 0.001 of 0.284), the torso contribution is the full 0.5 * 1.0, the
total score is their sum (within 0.001 of 0.784), and isGood is false
because the total is below the 0.85 side-view acceptance level —
whatever the active profile stores. -/
theorem C6_end_to_end_side (p : ThresholdProfile) :
    (calculatePostureScoreSide ⟨45, 10⟩ ⟨40, 15⟩ false p).neckBreakdown
        = 0.5 * (1 - Real.sqrt ((((45 : ℝ) - 40) / 40) * 1.5))
    ∧ |(calculatePostureScoreSide ⟨45, 10⟩ ⟨40, 15⟩ false p).neckBreakdown
        - 0.284| ≤ 0.001
    ∧ (calculatePostureScoreSide ⟨45, 10⟩ ⟨40, 15⟩ false p).torsoBreakdown
        = 0.5 * 1.0
    ∧ (calculatePostureScoreSide ⟨45, 10⟩ ⟨40, 15⟩ false p).score
        = 0.5 * (1 - Real.sqrt ((((45 : ℝ) - 40) / 40) * 1.5)) + 0.5 * 1.0
    ∧ |(calculatePostureScoreSide ⟨45, 10⟩ ⟨40, 15⟩ false p).score
        - 0.784| ≤ 0.001
    ∧ ¬ (calculatePostureScoreSide ⟨45, 10⟩ ⟨40, 15⟩ false p).isGood := by
  have harg : (((45 : ℝ) - 40) / 40) * 1.5 = 0.1875 := by norm_num
  have hub : Real.sqrt (0.1875 : ℝ) ≤ 0.434 := by
    have h := Real.sqrt_le_sqrt (show (0.1875 : ℝ) ≤ 0.434 ^ 2 by norm_num)
    rwa [Real.sqrt_sq (by norm_num)] at h
  have hlb : (0.43 : ℝ) ≤ Real.sqrt 0.1875 := by
    have h := Real.sqrt_le_sqrt (show ((0.43 : ℝ)) ^ 2 ≤ 0.1875 by norm_num)
    rwa [Real.sqrt_sq (by norm_num)] at h
  have hgt : (0.3 : ℝ) < Real.sqrt 0.1875 :=
    (Real.lt_sqrt (by norm_num)).mpr (by norm_num)
  have hc := side_components ⟨45, 10⟩ ⟨40, 15⟩ p
  have hnb : calculateAngleProgressiveScore (45 : ℝ) 40 0.50
      = 0.5 * (1 - Real.sqrt 0.1875) := by
    rw [angleProg_ge_eq 45 40 0.50 (by norm_num)]
    rw [show ((45 : ℝ) - 40) / 40 * 1.5 = 0.1875 by norm_num,
      min_eq_left (Real.sqrt_le_one.mpr (by norm_num))]
    norm_num
  have htb : calculateAngleProgressiveScore (10 : ℝ) 15 0.50 = 0.5 * 1.0 := by
    rw [angleProg_comfort_eq 10 15 0.50 (by norm_num) (by norm_num)]
    norm_num
  refine ⟨?_, ?_, ?_, ?_, ?_, ?_⟩
  · rw [hc.1, harg]
    exact hnb
  · rw [hc.1, hnb, abs_le]
    constructor <;> linarith
  · rw [hc.2.1]
    exact htb
  · rw [hc.2.2.1, harg, hnb, htb]
    ring
  · rw [hc.2.2.1, hnb, htb, abs_le]
    constructor <;> linarith
  · rw [hc.2.2.2, hc.2.2.1, hnb, htb]
    intro hge
    have : Real.sqrt (0.1875 : ℝ) ≤ 0.3 := by linarith
    linarith

/-- Witness for C6 at the standard profile: the end-to-end side score for
neck 45 and torso 10 is not accepted. -/
theorem C6_end_to_end_side_witness :
    ¬ (calculatePostureScoreSide ⟨45, 10⟩ ⟨40, 15⟩ false
        standardProfile).isGood :=
  (C6_end_to_end_side standardProfile).2.2.2.2.2

/-- Two-dimensional point as consumed by calculateAnglePrecise. -/
structure Pt where
  x : ℝ
  y : ℝ

/-- Magnitude of the vector from p to q, as computed for mag1 and mag2 in
calculateAnglePrecise (utils.js, lines 50-51). -/
noncomputable def magnitude (p q : Pt) : ℝ :=
  Real.sqrt ((q.x - p.x) * (q.x - p.x) + (q.y - p.y) * (q.y - p.y))

/-- Function calculateAnglePrecise (utils.js, lines 36-72): 0 when either
vector magnitude is below 1e-6, else the arccos of the cosine ratio
clamped to [-1, 1], converted to degrees and rounded to one decimal place.
JS Math.round rounds half toward positive infinity, exactly as Lean's
round does; the JS try/catch never fires since every step is total. -/
noncomputable def calculateAnglePrecise (p1 p2 p3 : Pt) : ℝ :=
  if magnitude p1 p2 < 1e-6 ∨ magnitude p1 p3 < 1e-6 then 0
  else
    let dot := (p2.x - p1.x) * (p3.x - p1.x) + (p2.y - p1.y) * (p3.y - p1.y)
    let cosAngle := dot / (magnitude p1 p2 * magnitude p1 p3)
    let clampedCos := max (-1) (min 1 cosAngle)
    let angleRad := Real.arccos clampedCos
    ((round ((180 / Real.pi) * angleRad * 10) : ℤ) : ℝ) / 10

/-- The rounded degree conversion of an arccos value lies in [0, 180]. -/
theorem round_deg_bounds (c : ℝ) :
    0 ≤ ((round ((180 / Real.pi) * Real.arccos c * 10) : ℤ) : ℝ) / 10
    ∧ ((round ((180 / Real.pi) * Real.arccos c * 10) : ℤ) : ℝ) / 10 ≤ 180 := by
  have h0 : 0 ≤ Real.arccos c := Real.arccos_nonneg c
  have hpi : Real.arccos c ≤ Real.pi := Real.arccos_le_pi c
  have hppos : 0 < Real.pi := Real.pi_pos
  have hr0 : 0 ≤ (180 / Real.pi) * Real.arccos c * 10 := by positivity
  have hr1 : (180 / Real.pi) * Real.arccos c * 10 ≤ 1800 := by
    rw [div_mul_eq_mul_div, div_mul_eq_mul_div, div_le_iff hppos]
    nlinarith
  have hz0 : 0 ≤ round ((180 / Real.pi) * Real.arccos c * 10) := by
    rw [round_eq]
    exact Int.le_floor.mpr (by push_cast; linarith)
  have hz1 : round ((180 / Real.pi) * Real.arccos c * 10) ≤ 1800 := by
    rw [round_eq]
    have h := Int.floor_lt.mpr
      (show (180 / Real.pi) * Real.arccos c * 10 + 1 / 2 < ((1801 : ℤ) : ℝ)
        by push_cast; linarith)
    omega
  constructor
  · exact div_nonneg (by exact_mod_cast hz0) (by norm_num)
  · rw [div_le_iff (by norm_num : (0 : ℝ) < 10)]
    calc ((round ((180 / Real.pi) * Real.arccos c * 10) : ℤ) : ℝ)
        ≤ ((1800 : ℤ) : ℝ) := by exact_mod_cast hz1
      _ = 180 * 10 := by norm_num

/-- C9: calculateAnglePrecise is total (no exceptional path is reachable in
the embedding): its value always lies in [0, 180] degrees, and it is 0
whenever either vector magnitude is below 1e-6. -/
theorem C9_angle_total_bounded (p1 p2 p3 : Pt) :
    (0 ≤ calculateAnglePrecise p1 p2 p3
      ∧ calculateAnglePrecise p1 p2 p3 ≤ 180)
    ∧ ((magnitude p1 p2 < 1e-6 ∨ magnitude p1 p3 < 1e-6) →
        calculateAnglePrecise p1 p2 p3 = 0) := by
  unfold calculateAnglePrecise
  by_cases hd : magnitude p1 p2 < 1e-6 ∨ magnitude p1 p3 < 1e-6
  · rw [if_pos hd]
    exact ⟨⟨le_refl 0, by norm_num⟩, fun _ => rfl⟩
  · rw [if_neg hd]
    exact ⟨⟨(round_deg_bounds _).1, (round_deg_bounds _).2⟩,
      fun h => absurd h hd⟩

/-- Witness for C9: a degenerate input with p2 equal to p1, whose first
vector magnitude is 0, yields 0. -/
theorem C9_angle_total_bounded_witness :
    (magnitude ⟨0, 0⟩ ⟨0, 0⟩ < 1e-6 ∨ magnitude ⟨0, 0⟩ ⟨0, 1⟩ < 1e-6)
    ∧ calculateAnglePrecise ⟨0, 0⟩ ⟨0, 0⟩ ⟨0, 1⟩ = 0 := by
  have hm : magnitude ⟨0, 0⟩ ⟨0, 0⟩ = 0 := by
    simp [magnitude]
  have hd : magnitude (⟨0, 0⟩ : Pt) ⟨0, 0⟩ < 1e-6
      ∨ magnitude (⟨0, 0⟩ : Pt) ⟨0, 1⟩ < 1e-6 := by
    left
    rw [hm]
    norm_num
  exact ⟨hd, (C9_angle_total_bounded ⟨0, 0⟩ ⟨0, 0⟩ ⟨0, 1⟩).2 hd⟩

end PostureCore
